import Mathlib

/-!
Shallow embedding of the `pi-radio` repository (files `scripts/radio.py` and
`scripts/utils/logger_utils.py`) and proofs of the specification claims.

External collaborators (the `pgrep`, `which`, `bluetoothctl` subprocesses, the
spawned audio player, and the filesystem) are modelled as explicit parameters
describing their observable outcome; the control flow, string processing and
log emissions of the Python functions themselves are translated statement by
statement.
-/

namespace PiRadio

/-- Severity of an emitted log line (`logger.info` / `logger.warning` /
`logger.error` in the source). -/
inductive LogLevel
  | info
  | warning
  | error
deriving DecidableEq, Repr

/-- One emitted log line: a severity and the message text. -/
structure LogLine where
  level : LogLevel
  msg : String
deriving DecidableEq, Repr

/-- Result of a `subprocess.run` call that completed without raising:
`returncode` and the captured `stdout` / `stderr` text. -/
structure RunResult where
  returncode : Int
  stdout : String
  stderr : String
deriving DecidableEq, Repr

/-- Observable outcome of a `subprocess.run` call: either the call itself
raised a Python exception (carrying its message), or it completed with a
`RunResult`. -/
inductive SubprocessOutcome
  | raised (msg : String)
  | completed (r : RunResult)
deriving DecidableEq, Repr

/-! Python string primitives used by `radio.py`, implemented over the
character list of the string so that every proof can evaluate them. -/

/-- Whitespace characters removed by Python's `str.strip()`. -/
def isPySpace (c : Char) : Bool :=
  c = ' ' || c = '\t' || c = '\n' || c = '\r' || c = '\x0b' || c = '\x0c'

/-- Python `str.strip()` on a character list: drop leading and trailing
whitespace. -/
def stripChars (cs : List Char) : List Char :=
  ((cs.dropWhile isPySpace).reverse.dropWhile isPySpace).reverse

/-- Python `str.split(chr(10))` on a character list: split on every newline,
keeping empty pieces (so the empty input yields one empty piece). -/
def splitNl : List Char → List (List Char)
  | [] => [[]]
  | c :: rest =>
    let r := splitNl rest
    if c = '\n' then [] :: r
    else
      match r with
      | [] => [[c]]
      | l :: ls => (c :: l) :: ls

/-- Value of a nonempty all-digit character list, `none` otherwise. -/
def digitsVal : List Char → Option Nat
  | [] => none
  | [c] => if c.isDigit then some (c.toNat - '0'.toNat) else none
  | c :: rest =>
    if c.isDigit then
      (digitsVal rest).map (fun n => (c.toNat - '0'.toNat) * 10 ^ rest.length + n)
    else none

/-- Python `int(s)` on an already-stripped character list: optional sign
followed by at least one digit; `none` models a raised `ValueError`. -/
def pyInt? (cs : List Char) : Option Int :=
  match cs with
  | '-' :: rest => (digitsVal rest).map (fun n => -(n : Int))
  | '+' :: rest => (digitsVal rest).map (fun n => (n : Int))
  | _ => (digitsVal cs).map (fun n => (n : Int))

/-- The pid-list comprehension of `is_already_running`
(`[int(pid.strip()) for pid in result.stdout.strip().split(chr(10)) if pid.strip()]`):
`none` models a `ValueError` raised by `int` on a non-numeric piece. -/
def parsePids (stdout : String) : Option (List Int) :=
  let pieces := splitNl (stripChars stdout.data)
  (pieces.filter (fun l => stripChars l ≠ [])).mapM (fun l => pyInt? (stripChars l))

/-- Embedding of `is_already_running` (radio.py lines 28-59).

Parameters: `loggerSet` is the truthiness of the module-global `logger`
(`True` in the `main` flow, where `setup_logging` runs first); `script_name`
the argument (`None` modelled as `none`); `current_pid` the value of
`os.getpid()`; `pgrep` the observable outcome of the
`subprocess.run(pgrep -f script_name)` call.

Returns the Boolean result paired with the emitted log lines. A `ValueError`
from `int` (i.e. `parsePids … = none`) is caught by the
`except Exception` clause like any other in-`try` exception. -/
def is_already_running (loggerSet : Bool) (script_name : Option String)
    (current_pid : Int) (pgrep : SubprocessOutcome) : Bool × List LogLine :=
  match script_name with
  | none => (false, [])
  | some _ =>
    match pgrep with
    | .raised e =>
      (false,
        if loggerSet then
          [⟨.warning, "Could not check for running instances: " ++ e⟩]
        else [])
    | .completed r =>
      if r.returncode = 0 then
        match parsePids r.stdout with
        | none =>
          -- int() raised ValueError; caught by the except-Exception clause
          (false,
            if loggerSet then
              [⟨.warning, "Could not check for running instances: ValueError"⟩]
            else [])
        | some pids =>
          let other_pids := pids.filter (fun pid => pid ≠ current_pid)
          if other_pids ≠ [] then
            (true,
              if loggerSet then
                [⟨.info, "Another instance already running (PID: " ++
                  toString other_pids ++ "). Exiting."⟩]
              else [])
          else (false, [])
      else (false, [])

/-! Embedding of `find_audio_player` and `play_stream` (radio.py lines 78-139). -/

/-- Outcome of the `subprocess.run(which <binary>, check=True, ...)` probe for
one candidate binary: exit 0 (`found`), nonzero exit which `check=True` turns
into a raised `subprocess.CalledProcessError` (`calledProcessError`), or any
other raised exception, e.g. `FileNotFoundError` when the probe command itself
cannot be launched (`otherError`). -/
inductive ProbeOutcome
  | found
  | calledProcessError
  | otherError (msg : String)
deriving DecidableEq, Repr

/-- The hardcoded stream URL (radio.py line 21). -/
def STREAM_URL : String := "https://wamu.cdnstream1.com/wamu.mp3"

/-- The fixed candidate list of `find_audio_player` (radio.py lines 80-83):
base command paired with display name, in source order. -/
def players : List (List String × String) :=
  [(["mpg123"], "mpg123"),
   (["ffplay", "-nodisp", "-autoexit"], "ffplay")]

/-- The `for cmd_base, name in players` loop of `find_audio_player`.
`which` gives the probe outcome per binary name; only a
`CalledProcessError` is caught and skipped (`continue`), any other probe
exception propagates (`Except.error`). -/
def findPlayerGo (which : String → ProbeOutcome) :
    List (List String × String) → Except String (Option (List String) × List LogLine)
  | [] => .ok (none, [])
  | (cmd_base, name) :: rest =>
    match which (cmd_base.headD "") with
    | .found =>
      .ok (some (cmd_base ++ [STREAM_URL]), [⟨.info, "Found audio player: " ++ name⟩])
    | .calledProcessError => findPlayerGo which rest
    | .otherError e => .error e

/-- Embedding of `find_audio_player` (radio.py lines 78-96): first resolvable
candidate with `STREAM_URL` appended, `none` if none resolves, paired with the
emitted log lines; `Except.error` models an uncaught probe exception. -/
def find_audio_player (which : String → ProbeOutcome) :
    Except String (Option (List String) × List LogLine) :=
  findPlayerGo which players

/-- Observable behaviour of the `subprocess.Popen` launch and the subsequent
supervision loop inside the `try` block of `play_stream`:
either `Popen` itself raised, or an exception was raised later during
supervision (polling / reading stderr), or the child was observed to exit
with a return code and captured stderr text. -/
inductive LaunchOutcome
  | raised (msg : String)
  | supervisionRaised (pid : Int) (msg : String)
  | exited (pid : Int) (returncode : Int) (stderrText : String)
deriving DecidableEq, Repr

/-- Embedding of `play_stream` (radio.py lines 98-139).

The `find_audio_player()` call sits OUTSIDE the `try` block (line 103 vs the
`try` opening at line 109), so a probe exception other than
`CalledProcessError` propagates out of `play_stream` (`Except.error`); every
exception raised inside the `try` (launch or supervision) is caught by the
`except Exception` clause and converted to the failure result `false`. -/
def play_stream (which : String → ProbeOutcome) (launch : LaunchOutcome) :
    Except String (Bool × List LogLine) :=
  match find_audio_player which with
  | .error e => .error e
  | .ok (none, logs) =>
    .ok (false, logs ++
      [⟨.error, "No suitable audio player found!"⟩,
       ⟨.error, "Please install one of: mpv, mpg123, vlc, mplayer, or ffmpeg"⟩])
  | .ok (some player_cmd, logs) =>
    let startLog : LogLine :=
      ⟨.info, "Starting WAMU stream with command: " ++ String.intercalate " " player_cmd⟩
    match launch with
    | .raised e =>
      .ok (false, logs ++ [startLog, ⟨.error, "Error starting player: " ++ e⟩])
    | .supervisionRaised pid e =>
      .ok (false, logs ++
        [startLog, ⟨.info, "WAMU stream started (PID: " ++ toString pid ++ ")"⟩,
         ⟨.error, "Error starting player: " ++ e⟩])
    | .exited pid rc stderrText =>
      let started := logs ++
        [startLog, ⟨.info, "WAMU stream started (PID: " ++ toString pid ++ ")"⟩]
      .ok (if rc ≠ 0 then
        (false, started ++
          [⟨.error, "Player exited with code " ++ toString rc⟩] ++
          (if stderrText ≠ "" then [⟨.error, "Player error: " ++ stderrText⟩] else []))
      else
        (true, started ++ [⟨.info, "Player finished normally"⟩]))

/-! Embedding of `signal_handler` (radio.py lines 61-76) as the trace of
observable events the handler performs, in order. -/

/-- One observable event of the signal handler: a log emission, the calls
`player_process.terminate()`, `player_process.wait(timeout=…)` and
`player_process.kill()`, and the final `sys.exit(code)`. -/
inductive SigEvent
  | log (line : LogLine)
  | terminate
  | wait (timeoutSeconds : Nat)
  | kill
  | exitProc (code : Int)
deriving DecidableEq, Repr

/-- State of the child player process when the signal arrives:
`notRunning` when `player_process` is `None` or `poll()` reports it exited;
otherwise whether `wait(timeout=5)` returns within the grace window
(`exitsWithinGrace`) or raises `subprocess.TimeoutExpired` (`hangs`). -/
inductive ChildState
  | notRunning
  | exitsWithinGrace
  | hangs
deriving DecidableEq, Repr

/-- Embedding of `signal_handler` (radio.py lines 61-76): the trace of events
performed for signal number `signum` with the child in state `child`. -/
def signal_handler (signum : Int) (child : ChildState) : List SigEvent :=
  [.log ⟨.info, "Received signal " ++ toString signum ++ ". Shutting down gracefully..."⟩] ++
  (match child with
   | .notRunning => []
   | .exitsWithinGrace =>
     [.log ⟨.info, "Terminating audio player..."⟩, .terminate, .wait 5]
   | .hangs =>
     [.log ⟨.info, "Terminating audio player..."⟩, .terminate, .wait 5,
      .log ⟨.warning, "Player didn" ++ String.singleton '\x27' ++ "t terminate gracefully, killing..."⟩,
      .kill]) ++
  [.log ⟨.info, "WAMU player stopped."⟩, .exitProc 0]

/-- The non-log events of a signal-handler trace (process-control actions). -/
def actionsOf (tr : List SigEvent) : List SigEvent :=
  tr.filter (fun e => match e with | .log _ => false | _ => true)

/-! Embedding of `check_bluetooth_devices` (radio.py lines 141-173). -/

/-- Outcome of one `subprocess.run(bluetoothctl devices Connected, timeout=10)`
probe: completion with a `RunResult`, a raised `subprocess.TimeoutExpired`,
or any other raised exception. -/
inductive BtProbe
  | completed (r : RunResult)
  | timedOut
  | raised (msg : String)
deriving DecidableEq, Repr

/-- Result of one iteration of the `while True` loop: `done` (the function
returns, playback proceeds) or `retry` after sleeping `waitSeconds`. -/
inductive BtStep
  | done (logs : List LogLine)
  | retry (logs : List LogLine) (waitSeconds : Nat)
deriving DecidableEq, Repr

/-- One iteration of the `check_bluetooth_devices` loop body on a probe
outcome. The function returns only on exit code 0 with nonempty stripped
stdout; every other outcome logs and sleeps 30 seconds. -/
def bt_step (p : BtProbe) : BtStep :=
  match p with
  | .completed r =>
    if r.returncode = 0 then
      -- Python truthiness of the stripped stdout text: nonemptiness
      if stripChars r.stdout.data ≠ [] then
        .done [⟨.info, "Connected Bluetooth devices found:\n" ++ String.mk (stripChars r.stdout.data)⟩]
      else
        .retry [⟨.info, "No Bluetooth devices connected. Waiting 30 seconds before checking again..."⟩] 30
    else
      .retry
        [⟨.warning, "Failed to check Bluetooth devices (exit code: " ++ toString r.returncode ++ ")"⟩,
         ⟨.warning, "Error output: " ++ String.mk (stripChars r.stderr.data)⟩,
         ⟨.info, "Waiting 30 seconds before retrying..."⟩] 30
  | .timedOut =>
    .retry [⟨.warning, "Bluetooth device check timed out. Waiting 30 seconds before retrying..."⟩] 30
  | .raised e =>
    .retry [⟨.warning, "Error checking Bluetooth devices: " ++ e ++ ". Waiting 30 seconds before retrying..."⟩] 30

/-- The `while True` loop of `check_bluetooth_devices`, run against the
probe-outcome sequence `probes` for at most `fuel` iterations: `some k` when
iteration `k` returns (a connected device was seen), `none` when all `fuel`
iterations retried — the source loop has no exit in that case and blocks
forever. -/
def bt_loop (probes : Nat → BtProbe) : Nat → Option Nat
  | 0 => none
  | fuel + 1 =>
    match bt_step (probes 0) with
    | .done _ => some 0
    | .retry _ _ => (bt_loop (fun k => probes (k + 1)) fuel).map (· + 1)

/-! Embedding of `main` (radio.py lines 175-207). -/

/-- Terminal observation of a `main` run: the process exit code (`sys.exit`
or falling off the end of `main`, which exits 0), an exception that
propagated out of `main` uncaught, or still being blocked inside the
Bluetooth wait loop after the given fuel. -/
inductive MainOutcome
  | exited (code : Int)
  | raisedOut (msg : String)
  | blocked
deriving DecidableEq, Repr

/-- The external environment of one `main` run: the current pid and the
observable outcomes of every collaborator invocation. -/
structure MainEnv where
  current_pid : Int
  pgrep : SubprocessOutcome
  btProbes : Nat → BtProbe
  which : String → ProbeOutcome
  launch : LaunchOutcome

/-- The value of `SCRIPT_NAME = os.path.basename(__file__)` (radio.py
line 22). -/
def SCRIPT_NAME : String := "radio.py"

/-- Embedding of `main` (radio.py lines 175-207). `setup_logging` and the
`signal.signal` installations set the module-global logger (all subsequent
calls run with the logger set) and register `signal_handler`; they do not
affect the control flow modelled here. `btFuel` bounds the Bluetooth wait
loop, whose divergence is reported as `blocked`. -/
def main_run (env : MainEnv) (btFuel : Nat) : MainOutcome :=
  if (is_already_running true (some SCRIPT_NAME) env.current_pid env.pgrep).1 then
    .exited 0
  else
    match bt_loop env.btProbes btFuel with
    | none => .blocked
    | some _ =>
      match play_stream env.which env.launch with
      | .error e => .raisedOut e
      | .ok (success, _) => if success then .exited 0 else .exited 1

/-! Embedding of `scripts/utils/logger_utils.py`. -/

/-- Split a character list on every occurrence of `sep`, keeping empty
pieces (Python `str.split(sep)` for a one-character separator). -/
def splitOnChar (sep : Char) : List Char → List (List Char)
  | [] => [[]]
  | c :: rest =>
    let r := splitOnChar sep rest
    if c = sep then [] :: r
    else
      match r with
      | [] => [[c]]
      | l :: ls => (c :: l) :: ls

/-- Join character-list pieces with the separator `sep` between them. -/
def joinChar (sep : Char) : List (List Char) → List Char
  | [] => []
  | [l] => l
  | l :: ls => l ++ sep :: joinChar sep ls

/-- Directory part of a path: everything before the final slash. This models
both `os.path.dirname` (logger_utils.py line 84) and `Path(p).parent`
(line 142) for the slash-containing `dir/name` paths this code handles. -/
def dirname (p : String) : String :=
  let parts := splitOnChar '/' p.data
  if parts.length ≤ 1 then "" else String.mk (joinChar '/' parts.dropLast)

/-- Final path component without its last extension: models `Path(p).stem`
(logger_utils.py line 39) for the ordinary `…/name.ext` paths that occur
here. -/
def stem (p : String) : String :=
  let base := (splitOnChar '/' p.data).getLastD []
  let parts := splitOnChar '.' base
  if parts.length ≤ 1 then String.mk base else String.mk (joinChar '.' parts.dropLast)

/-- Pure model of the filesystem facts the logging helpers probe. Directory
creation is modelled as a capability (`canCreate d` holds exactly when the
`mkdir` / `os.makedirs` call on `d` would succeed, with or without parent
creation as the call site requests); `writable d` holds exactly when the
create-then-unlink write-test marker in `d` succeeds. -/
structure FS where
  dirExists : String → Bool
  canCreate : String → Bool
  writable : String → Bool
  home : String
  cwd : String

/-- A configured logging handler: a `FileHandler` on a path or a
`StreamHandler` on stdout, each with its format string. -/
inductive Handler
  | file (path : String) (fmt : String)
  | console (fmt : String)
deriving DecidableEq, Repr

/-- The process-wide logging registry slice this code touches: the handler
list of each named logger and the root logger handler list (the target of
`logging.basicConfig`). -/
structure LoggingState where
  named : String → List Handler
  root : List Handler

/-- The handlers a record emitted on the named logger reaches: its own
handlers plus (by propagation to the root logger) the root handlers. One
log call produces one output line per reached handler. -/
def effectiveHandlers (st : LoggingState) (name : String) : List Handler :=
  st.named name ++ st.root

/-- A Python exception propagating out of `setup_logging`. -/
inductive PyError
  | typeError (msg : String)
  | osError (msg : String)
deriving DecidableEq, Repr

/-- Embedding of `_setup_log_file` (logger_utils.py lines 130-191): the
four-tier fallback chain. Tier 1 creates the requested directory when
missing and write-tests it; tier 2 does the same for `<home>/logs`; tier 3
write-tests the caller-file directory (when the caller is known); tier 4
write-tests the current working directory; each tier's exceptions are
swallowed and `none` disables file logging. -/
def setup_log_file (fs : FS) (log_file : String) (app_name : String)
    (caller_file : Option String) : Option String :=
  let log_dir := dirname log_file
  if (fs.dirExists log_dir || fs.canCreate log_dir) && fs.writable log_dir then
    some log_file
  else
    let home_log_dir := fs.home ++ "/logs"
    if (fs.dirExists home_log_dir || fs.canCreate home_log_dir) && fs.writable home_log_dir then
      some (home_log_dir ++ "/" ++ app_name ++ ".log")
    else
      let cwdFallback : Option String :=
        if fs.writable fs.cwd then some (fs.cwd ++ "/" ++ app_name ++ ".log") else none
      match caller_file with
      | some cf =>
        let local_dir := dirname cf
        if fs.writable local_dir then some (local_dir ++ "/" ++ app_name ++ ".log")
        else cwdFallback
      | none => cwdFallback

/-- The default log directory `ROOT_DIR + "/logs"` (logger_utils.py lines
17-21); `root_dir` is the realpath-derived installation root, an
environment fact. -/
def DEFAULT_LOG_DIR (root_dir : String) : String := root_dir ++ "/logs"

/-- Embedding of `_get_default_log_file` (logger_utils.py lines 45-55). -/
def get_default_log_file (root_dir app_name : String) : String :=
  DEFAULT_LOG_DIR root_dir ++ "/" ++ app_name ++ ".log"

/-- Application-name resolution of `setup_logging` (logger_utils.py lines
73-78 together with `_get_caller_info`, lines 23-43): an explicit name wins;
otherwise the stem of the caller file; otherwise the generic `app`. -/
def resolve_app_name (app_name caller_file : Option String) : String :=
  match app_name with
  | some a => a
  | none =>
    match caller_file with
    | some cf => stem cf
    | none => "app"

/-- Result of a completed `setup_logging` call: the updated logging
registry, the resolved application name, the resolved log file (`none` when
file logging is disabled), and the final initialization log line. -/
structure SetupResult where
  st : LoggingState
  app : String
  final_log_file : Option String
  initLog : LogLine

/-- Embedding of `setup_logging` (logger_utils.py lines 57-128).

`caller_file` models the `_get_caller_info` introspection (`none` for the
`'unknown'` case). The statements translate in source order: app-name
auto-detection; default-path generation (only when `file_output`);
`logs_dir = os.path.dirname(log_file)`, a `TypeError` when `log_file` is
still `None`; the bare `os.makedirs(logs_dir)` for a missing directory,
whose failure propagates because lines 84-86 sit outside any `try`; handler
clearing for the named logger; handler construction via `_setup_log_file`;
`basicConfig(force=True)`, which replaces the root handler list. The model
assumes a nonempty (truthy) `log_file` string when one is supplied. -/
def setup_logging (fs : FS) (root_dir : String)
    (log_file : Option String) (app_name : Option String)
    (console_output : Bool) (file_output : Bool) (log_format : Option String)
    (caller_file : Option String) (st : LoggingState) : Except PyError SetupResult :=
  let app := resolve_app_name app_name caller_file
  let log_file1 : Option String :=
    if log_file.isNone && file_output then some (get_default_log_file root_dir app)
    else log_file
  match log_file1 with
  | none => .error (.typeError "expected str, bytes or os.PathLike object, not NoneType")
  | some lf =>
    let logs_dir := dirname lf
    if !fs.dirExists logs_dir && !fs.canCreate logs_dir then
      .error (.osError ("os.makedirs failed for: " ++ logs_dir))
    else
      let fmt :=
        match log_format with
        | some f => f
        | none => "%(asctime)s - " ++ app ++ " - %(levelname)s - %(message)s"
      let final_log_file := if file_output then setup_log_file fs lf app caller_file else none
      let fileHandlers : List Handler :=
        match final_log_file with
        | some f => if file_output then [.file f fmt] else []
        | none => []
      let handlers := fileHandlers ++ (if console_output then [Handler.console fmt] else [])
      let st1 : LoggingState :=
        { named := fun n => if n = app then [] else st.named n
          root := handlers }
      let initLog : LogLine :=
        match final_log_file with
        | some f =>
          if file_output then ⟨.info, "Logging initialized for " ++ app ++ ". Log file: " ++ f⟩
          else ⟨.info, "Logging initialized for " ++ app ++ " (console only)"⟩
        | none => ⟨.info, "Logging initialized for " ++ app ++ " (console only)"⟩
      .ok ⟨st1, app, final_log_file, initLog⟩

/-! Concrete environments and small helpers used when settling the claims. -/

/-- A `which` collaborator that only ever reports found / not-found (exit 0
or the `CalledProcessError` of a nonzero exit), determined by `resolves`:
the normal operating regime of the path-resolution probe. -/
def whichOf (resolves : String → Bool) : String → ProbeOutcome :=
  fun b => if resolves b then .found else .calledProcessError

/-- A `which` collaborator for which every binary resolves. -/
def whichAllFound : String → ProbeOutcome := fun _ => .found

/-- A `which` collaborator whose probe invocation itself fails on the first
candidate (e.g. `FileNotFoundError` because the `which` binary is absent):
this exception is not a `CalledProcessError`, so `find_audio_player` does
not catch it. -/
def whichBrokenProbe : String → ProbeOutcome :=
  fun b => if b = "mpg123" then .otherError "FileNotFoundError: which" else .found

/-- A registry with no handlers attached anywhere. -/
def emptyLoggingState : LoggingState := { named := fun _ => [], root := [] }

/-- A filesystem in which every directory exists and is writable. -/
def fsAllGood : FS :=
  { dirExists := fun _ => true
    canCreate := fun _ => true
    writable := fun _ => true
    home := "/home/pi"
    cwd := "/app" }

/-- A filesystem in which the requested directory `/var/log/radio` exists
but is not writable, while the home fallback `/home/pi/logs` is writable. -/
def fsHomeFallback : FS :=
  { dirExists := fun d => d = "/var/log/radio" || d = "/home/pi/logs"
    canCreate := fun _ => false
    writable := fun d => d = "/home/pi/logs"
    home := "/home/pi"
    cwd := "/app" }

/-- A filesystem in which the requested directory `/var/log/radio` exists
but nothing is writable or creatable anywhere (all four fallback tiers
fail). -/
def fsAllBadButExists : FS :=
  { dirExists := fun d => d = "/var/log/radio"
    canCreate := fun _ => false
    writable := fun _ => false
    home := "/home/pi"
    cwd := "/app" }

/-- A filesystem in which nothing exists, nothing can be created and
nothing is writable — in particular the requested log directory is absent
and `os.makedirs` on it fails. -/
def fsAllBad : FS :=
  { dirExists := fun _ => false
    canCreate := fun _ => false
    writable := fun _ => false
    home := "/home/pi"
    cwd := "/app" }

/-- The default format string for app name `radio`. -/
def sampleFmt : String := "%(asctime)s - radio - %(levelname)s - %(message)s"

/-- The `SetupResult` produced by `setup_logging` on `fsAllGood` with the
requested file `/var/log/radio/radio.log`, app name `radio`, both sinks
enabled and the default format, starting from `emptyLoggingState`. -/
def sampleResult : SetupResult :=
  { st :=
      { named := fun n => if n = "radio" then [] else emptyLoggingState.named n
        root := [.file "/var/log/radio/radio.log" sampleFmt, .console sampleFmt] }
    app := "radio"
    final_log_file := some "/var/log/radio/radio.log"
    initLog := ⟨.info, "Logging initialized for radio. Log file: /var/log/radio/radio.log"⟩ }

/-- A `main` environment with one other-pid-free `pgrep` answer, an
immediately connected Bluetooth sink, and no resolvable player binary. -/
def envC6 : MainEnv :=
  { current_pid := 1
    pgrep := .completed ⟨1, "", ""⟩
    btProbes := fun _ => .completed ⟨0, "Device AA:BB:CC:DD:EE:FF pi-speaker", ""⟩
    which := fun _ => .calledProcessError
    launch := .raised "unused" }

/-! Theorems settling the claims. -/

/-- Claim C1: for every script basename, `is_already_running` returns `true`
if and only if the `pgrep` collaborator completes with exit code 0 and its
parsed pid list contains at least one pid different from the current
process's own pid; in particular a result listing only the current pid
yields `false`, and a raising collaborator (pgrep not succeeding) also
yields `false`. -/
theorem singleton_check_iff (loggerSet : Bool) (name : String) (cur : Int)
    (r : RunResult) (pids : List Int) (hparse : parsePids r.stdout = some pids) :
    (((is_already_running loggerSet (some name) cur (.completed r)).1 = true ↔
      (r.returncode = 0 ∧ ∃ p ∈ pids, p ≠ cur)) ∧
     (∀ e, (is_already_running loggerSet (some name) cur (.raised e)).1 = false)) := by
  refine ⟨?_, fun e => rfl⟩
  by_cases hrc : r.returncode = 0
  · by_cases hf : pids.filter (fun pid => decide (pid ≠ cur)) = []
    · simp only [is_already_running, hparse, hrc, hf, ne_eq, not_true_eq_false, if_false,
        if_true, ite_true]
      constructor
      · intro hcontra
        exact absurd hcontra (by simp)
      · rintro ⟨-, p, hp, hne⟩
        have := List.filter_eq_nil_iff.mp hf p hp
        exact absurd hne (by simpa using this)
    · simp only [is_already_running, hparse, hrc, hf, ne_eq, not_false_eq_true, if_true,
        ite_true]
      constructor
      · intro _
        refine ⟨trivial, ?_⟩
        rcases List.exists_mem_of_ne_nil _ hf with ⟨x, hx⟩
        have hx' := List.mem_filter.mp hx
        exact ⟨x, hx'.1, by simpa using hx'.2⟩
      · intro _
        trivial
  · simp [is_already_running, hparse, hrc]

/-- Claim C1 witness: a `pgrep` answer listing only the current pid (1234)
is treated as not already running. -/
theorem singleton_check_iff_witness :
    ((is_already_running true (some "radio.py") 1234
        (.completed ⟨0, "1234\n", ""⟩)).1 = true ↔
      ((0 : Int) = 0 ∧ ∃ p ∈ [(1234 : Int)], p ≠ 1234)) :=
  (singleton_check_iff true "radio.py" 1234 ⟨0, "1234\n", ""⟩ [1234] (by decide)).1

/-- Claim C8: when the process-enumeration call itself raises,
`is_already_running` logs a warning, returns `false` (not already running),
and execution proceeds. -/
theorem singleton_check_enumeration_failure (name : String) (cur : Int) (e : String) :
    is_already_running true (some name) cur (.raised e) =
      (false, [⟨.warning, "Could not check for running instances: " ++ e⟩]) := rfl

/-- Claim C2: for every assignment of which candidate binaries resolve,
`find_audio_player` returns the first candidate in fixed list order
(`mpg123` before `ffplay`) whose binary resolves, as its base command with
the stream URL appended as the final argument, and returns `none` exactly
when every candidate fails resolution (`List.find?` selects the first
match of the fixed `players` list and is `none` iff no candidate
matches). -/
theorem find_audio_player_first_resolvable (resolves : String → Bool) :
    (find_audio_player (whichOf resolves)).map Prod.fst =
      .ok ((players.find? (fun p => resolves (p.1.headD ""))).map
        (fun p => p.1 ++ [STREAM_URL])) := by
  cases h1 : resolves "mpg123" <;> cases h2 : resolves "ffplay" <;>
    simp [find_audio_player, findPlayerGo, players, whichOf, h1, h2, List.find?,
      Except.map]

/-- Claim C3 evaluated on the code: (1) with a writable requested directory
the resolved log path equals the requested one; (2) with an existing but
unwritable requested directory and a writable home fallback the resolved
path is under `<home>/logs`; (3) with every tier unwritable but the
requested directory existing, file output is disabled (`none`) and
`setup_logging` completes without an exception; (4) the `_setup_log_file`
fallback chain itself resolves `none` when every tier is unwritable; BUT
(5) when the requested directory does not exist and cannot be created, the
bare `os.makedirs` call (logger_utils.py lines 84-86, outside any `try`)
raises, and the exception propagates out of `setup_logging` before the
fallback chain runs — contradicting the no-exception part of the claim. -/
theorem log_path_fallback_and_makedirs_crash :
    ((setup_logging fsAllGood "/opt/pi-radio" (some "/var/log/radio/radio.log") (some "radio")
        true true none (some "/app/scripts/radio.py") emptyLoggingState).map
      (fun res => res.final_log_file) = .ok (some "/var/log/radio/radio.log")) ∧
    ((setup_logging fsHomeFallback "/opt/pi-radio" (some "/var/log/radio/radio.log") (some "radio")
        true true none (some "/app/scripts/radio.py") emptyLoggingState).map
      (fun res => res.final_log_file) = .ok (some "/home/pi/logs/radio.log")) ∧
    ((setup_logging fsAllBadButExists "/opt/pi-radio" (some "/var/log/radio/radio.log") (some "radio")
        true true none (some "/app/scripts/radio.py") emptyLoggingState).map
      (fun res => res.final_log_file) = .ok none) ∧
    (setup_log_file fsAllBad "/var/log/radio/radio.log" "radio" (some "/app/scripts/radio.py")
      = none) ∧
    (setup_logging fsAllBad "/opt/pi-radio" (some "/var/log/radio/radio.log") (some "radio")
        true true none (some "/app/scripts/radio.py") emptyLoggingState =
      .error (.osError "os.makedirs failed for: /var/log/radio")) := by
  refine ⟨?_, ?_, ?_, ?_, ?_⟩ <;> rfl

/-- Claim C4: re-running `setup_logging` with the same arguments on the
registry state it produced returns the same result and the same state
(handlers previously attached for the name are cleared and the root
handler set is replaced, so repeated setup equals single setup), and the
handler set reached by one log call on the configured name is exactly the
freshly attached root handler set — no duplicates. -/
theorem setup_logging_idempotent (fs : FS) (root_dir : String)
    (log_file : Option String) (app_name : Option String)
    (console_output file_output : Bool) (log_format : Option String)
    (caller_file : Option String) (st : LoggingState) (res : SetupResult)
    (h : setup_logging fs root_dir log_file app_name console_output file_output
          log_format caller_file st = .ok res) :
    setup_logging fs root_dir log_file app_name console_output file_output
        log_format caller_file res.st = .ok res ∧
    effectiveHandlers res.st res.app = res.st.root := by
  simp only [setup_logging] at h ⊢
  split at h
  · exact absurd h (by simp)
  · split at h
    · exact absurd h (by simp)
    · rename_i hc
      rw [if_neg hc]
      rw [Except.ok.injEq] at h
      subst h
      refine ⟨?_, ?_⟩
      · congr 1
        congr 1
        congr 1
        funext n
        by_cases hn : n = resolve_app_name app_name caller_file <;> simp [hn]
      · simp [effectiveHandlers]

/-- Claim C4 witness: re-running `setup_logging` for app name `radio` on the
state produced by a first run returns the identical state and result, and a
single log call on `radio` reaches exactly the root handler set. -/
theorem setup_logging_idempotent_witness :
    setup_logging fsAllGood "/opt/pi-radio" (some "/var/log/radio/radio.log") (some "radio")
        true true none (some "/app/scripts/radio.py") sampleResult.st = .ok sampleResult ∧
    effectiveHandlers sampleResult.st sampleResult.app = sampleResult.st.root :=
  setup_logging_idempotent fsAllGood "/opt/pi-radio" (some "/var/log/radio/radio.log")
    (some "radio") true true none (some "/app/scripts/radio.py") emptyLoggingState
    sampleResult (by rfl)

/-- Claim C5: for every signal and child state, the handler trace issues a
graceful terminate whenever the child is still running; any forceful kill
in the trace is strictly preceded by both a terminate and the 5-second
bounded wait (so a kill never precedes a terminate and only follows the
grace window); and the trace ends by exiting the process with code 0. -/
theorem signal_handler_graceful (signum : Int) (child : ChildState) :
    (child ≠ .notRunning → SigEvent.terminate ∈ actionsOf (signal_handler signum child)) ∧
    (∀ i, ∀ hi : i < (actionsOf (signal_handler signum child)).length,
      (actionsOf (signal_handler signum child)).get ⟨i, hi⟩ = SigEvent.kill →
      SigEvent.terminate ∈ (actionsOf (signal_handler signum child)).take i ∧
      SigEvent.wait 5 ∈ (actionsOf (signal_handler signum child)).take i) ∧
    (actionsOf (signal_handler signum child)).getLast? = some (.exitProc 0) := by
  cases child <;> simp [signal_handler, actionsOf] <;>
    (intro i hi h; interval_cases i <;> simp_all)

/-- Claim C5 witness: for signal 15 with a child that ignores the graceful
request, a terminate action is issued. -/
theorem signal_handler_graceful_witness :
    SigEvent.terminate ∈ actionsOf (signal_handler 15 .hangs) :=
  (signal_handler_graceful 15 .hangs).1 (by decide)

/-- Claim C6: when no player binary resolves (every probe exits nonzero),
player selection returns `none`, `play_stream` logs the
no-suitable-player error and the suggested-installs line and returns
failure without attempting a launch, and `main` exits with code 1
(provided the run reaches selection: not already running and the
Bluetooth gate passes). -/
theorem no_player_failure_exit_one (env : MainEnv) (btFuel : Nat)
    (hwhich : ∀ b, env.which b = .calledProcessError)
    (hnr : (is_already_running true (some SCRIPT_NAME) env.current_pid env.pgrep).1 = false)
    (hbt : bt_loop env.btProbes btFuel ≠ none) :
    find_audio_player env.which = .ok (none, []) ∧
    play_stream env.which env.launch = .ok (false,
      [⟨.error, "No suitable audio player found!"⟩,
       ⟨.error, "Please install one of: mpv, mpg123, vlc, mplayer, or ffmpeg"⟩]) ∧
    main_run env btFuel = .exited 1 := by
  have hf : find_audio_player env.which = .ok (none, []) := by
    simp [find_audio_player, findPlayerGo, players, hwhich "mpg123", hwhich "ffplay"]
  have hp : play_stream env.which env.launch = .ok (false,
      [⟨.error, "No suitable audio player found!"⟩,
       ⟨.error, "Please install one of: mpv, mpg123, vlc, mplayer, or ffmpeg"⟩]) := by
    simp [play_stream, hf]
  refine ⟨hf, hp, ?_⟩
  rcases hbl : bt_loop env.btProbes btFuel with _ | k
  · exact absurd hbl hbt
  · simp [main_run, hnr, hbl, hp]

/-- Claim C6 witness: in the concrete environment with no resolvable player,
one connected Bluetooth device and no other instance, the selection returns
`none`, `play_stream` fails with the two error lines, and `main` exits 1. -/
theorem no_player_failure_exit_one_witness :
    find_audio_player envC6.which = .ok (none, []) ∧
    play_stream envC6.which envC6.launch = .ok (false,
      [⟨.error, "No suitable audio player found!"⟩,
       ⟨.error, "Please install one of: mpv, mpg123, vlc, mplayer, or ffmpeg"⟩]) ∧
    main_run envC6 1 = .exited 1 :=
  no_player_failure_exit_one envC6 1 (fun _ => rfl) (by decide) (by decide)

/-- Claim C7 counterexample: when the path-resolution probe itself fails on
the first candidate with an exception that is not a `CalledProcessError`
(here a `FileNotFoundError` because the `which` binary is absent), the
exception propagates out of `play_stream` uncaught — refuting the claim
that every exception arising during player selection is caught inside
`play_stream`. The `find_audio_player()` call sits outside the `try` block
(radio.py line 103 vs line 109) and `find_audio_player` itself catches only
`subprocess.CalledProcessError` (line 93). -/
theorem play_stream_probe_exception_escapes :
    play_stream whichBrokenProbe (.raised "launch never attempted") =
      .error "FileNotFoundError: which" := rfl

/-- Helper: under a probe that only reports found / not-found, the player
selection takes one of three values: mpg123 chosen, ffplay chosen, or no
player found. -/
theorem find_audio_player_cases (which : String → ProbeOutcome)
    (hprobe : ∀ b e, which b ≠ .otherError e) :
    find_audio_player which =
        .ok (some ["mpg123", STREAM_URL], [⟨.info, "Found audio player: mpg123"⟩]) ∨
    find_audio_player which =
        .ok (some ["ffplay", "-nodisp", "-autoexit", STREAM_URL],
          [⟨.info, "Found audio player: ffplay"⟩]) ∨
    find_audio_player which = .ok (none, []) := by
  rcases h1 : which "mpg123" with _ | _ | e1
  · exact Or.inl (by simp [find_audio_player, findPlayerGo, players, h1])
  · rcases h2 : which "ffplay" with _ | _ | e2
    · exact Or.inr (Or.inl (by simp [find_audio_player, findPlayerGo, players, h1, h2]))
    · exact Or.inr (Or.inr (by simp [find_audio_player, findPlayerGo, players, h1, h2]))
    · exact absurd h2 (hprobe "ffplay" e2)
  · exact absurd h1 (hprobe "mpg123" e1)

/-- Helper: value of `play_stream` when a player was selected and `Popen`
raises — the exception is caught and logged, failure is returned. -/
theorem play_stream_raised_eq (which : String → ProbeOutcome) (cmd : List String)
    (logs0 : List LogLine) (e : String)
    (hfind : find_audio_player which = .ok (some cmd, logs0)) :
    play_stream which (.raised e) = .ok (false, logs0 ++
      [⟨.info, "Starting WAMU stream with command: " ++ String.intercalate " " cmd⟩,
       ⟨.error, "Error starting player: " ++ e⟩]) := by
  simp [play_stream, hfind]

/-- Helper: value of `play_stream` when a player was selected, the launch
succeeded and supervision raises — caught and logged, failure returned. -/
theorem play_stream_supervision_raised_eq (which : String → ProbeOutcome)
    (cmd : List String) (logs0 : List LogLine) (pid : Int) (e : String)
    (hfind : find_audio_player which = .ok (some cmd, logs0)) :
    play_stream which (.supervisionRaised pid e) = .ok (false, logs0 ++
      [⟨.info, "Starting WAMU stream with command: " ++ String.intercalate " " cmd⟩,
       ⟨.info, "WAMU stream started (PID: " ++ toString pid ++ ")"⟩,
       ⟨.error, "Error starting player: " ++ e⟩]) := by
  simp [play_stream, hfind]

/-- Helper: value of `play_stream` when no player was selected — the launch
is never attempted and failure is returned with the two error lines. -/
theorem play_stream_none_eq (which : String → ProbeOutcome) (logs0 : List LogLine)
    (launch : LaunchOutcome)
    (hfind : find_audio_player which = .ok (none, logs0)) :
    play_stream which launch = .ok (false, logs0 ++
      [⟨.error, "No suitable audio player found!"⟩,
       ⟨.error, "Please install one of: mpv, mpg123, vlc, mplayer, or ffmpeg"⟩]) := by
  simp [play_stream, hfind]

/-- Claim C7 amended: provided the path-resolution probe only ever reports
found or not-found (never a non-`CalledProcessError` exception),
`play_stream` never lets an exception escape, and every launch or
supervision exception raised inside its `try` block is converted into the
failure result with an error line logged (either the caught-exception log
or, when no player was selected so the `try` is never entered, the
no-suitable-player log). -/
theorem play_stream_try_exceptions_caught (which : String → ProbeOutcome)
    (launch : LaunchOutcome)
    (hprobe : ∀ b e, which b ≠ .otherError e) :
    (∃ res, play_stream which launch = .ok res) ∧
    (∀ e, (launch = .raised e ∨ ∃ pid, launch = .supervisionRaised pid e) →
      ∃ logs, play_stream which launch = .ok (false, logs) ∧
        ((⟨.error, "Error starting player: " ++ e⟩ : LogLine) ∈ logs ∨
         (⟨.error, "No suitable audio player found!"⟩ : LogLine) ∈ logs)) := by
  have hf3 := find_audio_player_cases which hprobe
  constructor
  · rcases hps : play_stream which launch with er | res
    · rcases hf3 with hf | hf | hf <;> rcases launch <;> simp [play_stream, hf] at hps
    · exact ⟨res, rfl⟩
  · rintro e (rfl | ⟨pid, rfl⟩) <;> rcases hf3 with hf | hf | hf
    · exact ⟨_, play_stream_raised_eq _ _ _ _ hf, Or.inl (by simp)⟩
    · exact ⟨_, play_stream_raised_eq _ _ _ _ hf, Or.inl (by simp)⟩
    · exact ⟨_, play_stream_none_eq _ _ _ hf, Or.inr (by simp)⟩
    · exact ⟨_, play_stream_supervision_raised_eq _ _ _ _ _ hf, Or.inl (by simp)⟩
    · exact ⟨_, play_stream_supervision_raised_eq _ _ _ _ _ hf, Or.inl (by simp)⟩
    · exact ⟨_, play_stream_none_eq _ _ _ hf, Or.inr (by simp)⟩

/-- Claim C7 amended witness: with every binary resolvable and a launch
that raises, `play_stream` returns the failure result and logs the caught
exception. -/
theorem play_stream_try_exceptions_caught_witness :
    (∃ res, play_stream whichAllFound (.raised "boom") = .ok res) ∧
    (∀ e, ((LaunchOutcome.raised "boom" = .raised e ∨
        ∃ pid, LaunchOutcome.raised "boom" = .supervisionRaised pid e)) →
      ∃ logs, play_stream whichAllFound (.raised "boom") = .ok (false, logs) ∧
        ((⟨.error, "Error starting player: " ++ e⟩ : LogLine) ∈ logs ∨
         (⟨.error, "No suitable audio player found!"⟩ : LogLine) ∈ logs)) :=
  play_stream_try_exceptions_caught whichAllFound (.raised "boom")
    (fun b e h => by simp [whichAllFound] at h)

/-- Claim C9: a loop iteration of `check_bluetooth_devices` returns
(allowing playback to proceed) exactly when the device-listing call
completes with exit code 0 and a nonempty (stripped) stdout; every other
probe outcome — no devices, nonzero exit, timeout, or exception — yields a
retry after the fixed 30-second wait and never a raise (the step is total
and every non-done outcome is `retry _ 30`); and when no probe in the
sequence ever reports a connected device, the loop never returns within
any fuel bound — it blocks forever. -/
theorem bluetooth_gate (p : BtProbe) (probes : Nat → BtProbe) (fuel : Nat) :
    ((∃ logs, bt_step p = .done logs) ↔
      (∃ r, p = .completed r ∧ r.returncode = 0 ∧ stripChars r.stdout.data ≠ [])) ∧
    ((∃ logs, bt_step p = .done logs) ∨ (∃ logs, bt_step p = .retry logs 30)) ∧
    ((∀ n logs, bt_step (probes n) ≠ .done logs) → bt_loop probes fuel = none) := by
  refine ⟨?_, ?_, ?_⟩
  · rcases p with r | _ | e
    · by_cases hrc : r.returncode = 0 <;> by_cases hs : stripChars r.stdout.data = [] <;>
        simp [bt_step, hrc, hs]
    · simp [bt_step]
    · simp [bt_step]
  · rcases p with r | _ | e
    · by_cases hrc : r.returncode = 0 <;> by_cases hs : stripChars r.stdout.data = [] <;>
        simp [bt_step, hrc, hs]
    · simp [bt_step]
    · simp [bt_step]
  · induction fuel generalizing probes with
    | zero => intro _; rfl
    | succ n ih =>
      intro hnd
      rcases hstep : bt_step (probes 0) with logs | ⟨logs, w⟩
      · exact absurd hstep (hnd 0 logs)
      · simp only [bt_loop, hstep]
        rw [ih (fun k => probes (k + 1)) (fun m logs => hnd (m + 1) logs)]
        rfl

/-- Claim C9 witness: with every probe timing out, the gate is still inside
the loop after three iterations (and, by the theorem, after any number). -/
theorem bluetooth_gate_witness :
    bt_loop (fun _ => BtProbe.timedOut) 3 = none :=
  (bluetooth_gate .timedOut (fun _ => .timedOut) 3).2.2
    (fun _ logs => by simp [bt_step])

/-- Claim C10: calling `setup_logging` with `file_output=False` and no
explicit log file does not complete normally: the default path is only
generated when file output is enabled, so `log_file` stays `None` and the
unconditional `os.path.dirname(log_file)` (logger_utils.py line 84) raises
a `TypeError` instead of returning a console-only logger — for every
filesystem, app name, console flag, format and prior registry state. -/
theorem setup_logging_console_only_type_error (fs : FS) (root_dir : String)
    (app_name : Option String) (console_output : Bool) (log_format : Option String)
    (caller_file : Option String) (st : LoggingState) :
    setup_logging fs root_dir none app_name console_output false log_format caller_file st =
      .error (.typeError "expected str, bytes or os.PathLike object, not NoneType") := rfl

end PiRadio
